import Mathlib

set_option maxHeartbeats 1000000

/-
Verification of the ikfk-snapping tool (src/ikfk_snap.py).

Two embeddings are used:
* a computable operational model (over ℚ, Bool, String) of the `snap`
  primitive (lines 298-333) and of the orchestrators `ik_to_fk`
  (lines 5-108) and `fk_to_ik` (lines 111-151), recording the sequence of
  scene-graph operations, the blend-toggle value, and error propagation;
* a real-vector model of the pole-vector geometry computed inside
  `ik_to_fk` (lines 59-87), with `maya.OpenMaya` vector/matrix semantics
  (row-vector times matrix, translation ignored for direction transforms,
  and `MVector.normal()` of the zero vector returning the zero vector).
-/

namespace IkfkSnap

/- ### Substring test
Models the Python expression `"leg" in str(blend_ctl)` used at lines 91
and 137 to decide whether the limb is a leg. -/

def charListPre : List Char → List Char → Bool
  | [], _ => true
  | _ :: _, [] => false
  | a :: as, b :: bs => a == b && charListPre as bs

def charListSub (pat : List Char) : List Char → Bool
  | [] => charListPre pat []
  | c :: rest => charListPre pat (c :: rest) || charListSub pat rest

def strContains (s pat : String) : Bool :=
  charListSub pat.data s.data

/- ### The `snap` primitive (lines 298-333)
`snap(source, target, attr, value)` mutates the scene:
line 316 sets the toggle to `value`; line 319 duplicates the source with
`po=True` (parent-only proxy); line 320 queries the source's parent (a
read); line 323 reparents the proxy under the target; line 326 sets the
toggle to `1 - value`; line 329 reads the proxy's world matrix; line 330
writes it onto the source; line 333 deletes the proxy.  There is no
`try/finally`: if a step raises, the remaining lines do not run.

The scene is abstracted by `targetWorldAt`: the world transform that the
proxy, once parented under the target, evaluates to as a function of the
current toggle value (the claim's modelling assumption that the
re-parented proxy evaluates to the target's pose).  `FailPlan` injects a
failure at the re-parent, the matrix read, or the matrix write. -/

inductive SnapOp where
  | setToggle (v : ℚ)
  | duplicateSource
  | queryParent
  | reparentProxy
  | readProxyMatrix
  | writeSourceMatrix
  | deleteProxy
  deriving DecidableEq

inductive SnapErr where
  | reparentFailed
  | readFailed
  | writeFailed
  deriving DecidableEq

structure FailPlan where
  failReparent : Bool
  failRead : Bool
  failWrite : Bool
  deriving DecidableEq

structure SnapState (T : Type) where
  toggle : ℚ
  sourceW : T
  proxyLive : Bool

structure SnapOut (T : Type) where
  state : SnapState T
  trace : List SnapOp
  err : Option SnapErr

def snapRun (T : Type) (targetWorldAt : ℚ → T) (value : ℚ) (fp : FailPlan)
    (s0 : SnapState T) : SnapOut T :=
  -- line 316: pm.setAttr(attr, value)
  let s1 : SnapState T := { s0 with toggle := value }
  -- line 319: dup_source = pm.duplicate(source, po=True)[0]
  let s2 : SnapState T := { s1 with proxyLive := true }
  -- line 320: source_parent = pm.listRelatives(source, parent=True)[0]  (read only)
  let tr0 : List SnapOp :=
    [SnapOp.setToggle value, SnapOp.duplicateSource, SnapOp.queryParent]
  -- line 323: pm.parent(dup_source, target)
  if fp.failReparent then
    { state := s2, trace := tr0, err := some SnapErr.reparentFailed }
  else
    -- line 326: pm.setAttr(attr, 1-value)
    let s3 : SnapState T := { s2 with toggle := 1 - value }
    let tr1 : List SnapOp := tr0 ++ [SnapOp.reparentProxy, SnapOp.setToggle (1 - value)]
    -- line 329: transforms = pm.xform(dup_source, ws=True, matrix=True, q=True)
    if fp.failRead then
      { state := s3, trace := tr1, err := some SnapErr.readFailed }
    else
      let m : T := targetWorldAt s3.toggle
      let tr2 : List SnapOp := tr1 ++ [SnapOp.readProxyMatrix]
      -- line 330: pm.xform(source, ws=True, matrix=transforms)
      if fp.failWrite then
        { state := s3, trace := tr2, err := some SnapErr.writeFailed }
      else
        let s4 : SnapState T := { s3 with sourceW := m }
        -- line 333: pm.delete(dup_source)
        { state := { s4 with proxyLive := false },
          trace := tr2 ++ [SnapOp.writeSourceMatrix, SnapOp.deleteProxy],
          err := none }

/- ### Orchestrators `ik_to_fk` (lines 5-108) and `fk_to_ik` (lines 111-151)
Trace-level model.  Toggle evolution: each inner `snap(src, tgt, blend,
value)` sets the toggle to `value` and then to `1 - value`; an injected
snap failure (at the re-parent, before the flip) leaves it at `value` and
propagates.  Line 102 / line 145 restore the stored value `b0`; the
keyframe section (lines 104-108 / 147-151) runs after the restore, and
its `if ball_ik:` / `if ball_fk:` reads a local variable that is only
assigned inside the leg branch, so a non-leg call with `key=True` raises
a name-lookup error there. -/

inductive SnapSlot where
  | handle
  | fk1
  | fk2
  | fk3
  | ball
  deriving DecidableEq

inductive Ev where
  | getBlend
  | setIkRoll (v : ℚ)
  | readFk (i : ℕ)
  | snapCall (slot : SnapSlot) (value : ℚ)
  | moveHandleTranslate
  | placePoleAtMid
  | movePoleRel
  | zeroPoleRot
  | ballCopy
  | setBlend (v : ℚ)
  | keyIkCtls
  | keyFkCtls
  | keyBall
  | nameError
  deriving DecidableEq

structure RunOut where
  trace : List Ev
  toggle : ℚ
  ikRoll : ℚ
  errored : Bool
  deriving DecidableEq

def Ev.isSnap : Ev → Bool
  | .snapCall _ _ => true
  | _ => false

def snapCount (tr : List Ev) : ℕ :=
  (tr.filter Ev.isSnap).length

/- Lines 70-108 of `ik_to_fk`, entered after the handle was positioned:
pole placement (lines 73, 86, 87), the leg-only ball copy (lines 91-98),
the toggle restore (line 102) and the keyframe section (lines 104-108).
`ikBallTruthy` models whether the `ik_ball` argument is a truthy node
(only relevant on the leg path, where `ball_ik` is assigned). -/
def ikToFkTail (blendCtl : String) (key : Bool) (b0 : ℚ) (ikBallTruthy : Bool)
    (tr : List Ev) : RunOut :=
  let leg := strContains blendCtl "leg"
  let tr1 := tr ++ [Ev.placePoleAtMid, Ev.movePoleRel, Ev.zeroPoleRot]
  let tr2 := if leg then tr1 ++ [Ev.ballCopy] else tr1
  let tr3 := tr2 ++ [Ev.setBlend b0]
  if key then
    if leg then
      if ikBallTruthy then ⟨tr3 ++ [Ev.keyIkCtls, Ev.keyBall], b0, 0, false⟩
      else ⟨tr3 ++ [Ev.keyIkCtls], b0, 0, false⟩
    else ⟨tr3 ++ [Ev.keyIkCtls, Ev.nameError], b0, 0, true⟩
  else ⟨tr3, b0, 0, false⟩

/- `ik_to_fk`: line 38 reads the blend (`b0`), line 41 sets `ikRoll` to 0
(whatever `rollInit` was), lines 44-51 read the three fk world positions,
lines 54-57 either `snap` the handle (value 1) or translate-move it, then
`ikToFkTail`.  `snapFails` injects a failure inside the handle snap. -/
def ikToFkRun (blendCtl : String) (ikRot key : Bool) (b0 rollInit : ℚ)
    (snapFails ikBallTruthy : Bool) : RunOut :=
  let tr0 : List Ev :=
    [Ev.getBlend, Ev.setIkRoll 0, Ev.readFk 0, Ev.readFk 1, Ev.readFk 2]
  if ikRot then
    if snapFails then ⟨tr0 ++ [Ev.snapCall SnapSlot.handle 1], 1, 0, true⟩
    else ikToFkTail blendCtl key b0 ikBallTruthy (tr0 ++ [Ev.snapCall SnapSlot.handle 1])
  else ikToFkTail blendCtl key b0 ikBallTruthy (tr0 ++ [Ev.moveHandleTranslate])

/- Lines 136-151 of `fk_to_ik`: the leg-only ball snap (line 143), the
toggle restore (line 145) and the keyframe section (lines 147-151; for a
leg, `ball_fk = fk_list[-1]` is a node and hence truthy). -/
def fkToIkTail (blendCtl : String) (key : Bool) (b0 rollInit : ℚ)
    (tr : List Ev) : RunOut :=
  let leg := strContains blendCtl "leg"
  let tr1 := if leg then tr ++ [Ev.snapCall SnapSlot.ball 0] else tr
  let tr2 := tr1 ++ [Ev.setBlend b0]
  if key then
    if leg then ⟨tr2 ++ [Ev.keyFkCtls, Ev.keyBall], b0, rollInit, false⟩
    else ⟨tr2 ++ [Ev.keyFkCtls, Ev.nameError], b0, rollInit, true⟩
  else ⟨tr2, b0, rollInit, false⟩

/- `fk_to_ik`: line 130 reads the blend, lines 132-134 snap the three fk
controls (value 0 each; each leaves the toggle at 1), then `fkToIkTail`.
`fk_to_ik` never touches `ikRoll`, so it keeps `rollInit`. -/
def fkToIkRun (blendCtl : String) (key : Bool) (b0 rollInit : ℚ)
    (snapFails : Bool) : RunOut :=
  let tr0 : List Ev := [Ev.getBlend]
  if snapFails then ⟨tr0 ++ [Ev.snapCall SnapSlot.fk1 0], 0, rollInit, true⟩
  else fkToIkTail blendCtl key b0 rollInit
    (tr0 ++ [Ev.snapCall SnapSlot.fk1 0, Ev.snapCall SnapSlot.fk2 0,
             Ev.snapCall SnapSlot.fk3 0])

/- ### Pole-vector geometry (`ik_to_fk`, lines 59-87)
Real-vector model of `maya.OpenMaya`.  `MVector.normal()` of the zero
vector returns the zero vector; Lean's `x * 0⁻¹ = 0` convention matches
this.  The division `root_mid / upper_length` at line 68 is componentwise
scalar division; when `upper_length = 0` the host's float semantics
produce non-finite components whereas this model yields the zero vector —
no claim below is settled in that regime.  `MVector * MMatrix` multiplies
a row vector by the matrix ignoring the translation row, so a matrix is
modelled by its upper 3×3 block (rows `r0 r1 r2`). -/

noncomputable section

@[ext] structure Vec3 where
  x : ℝ
  y : ℝ
  z : ℝ

namespace Vec3

def add (a b : Vec3) : Vec3 := ⟨a.x + b.x, a.y + b.y, a.z + b.z⟩

def sub (a b : Vec3) : Vec3 := ⟨a.x - b.x, a.y - b.y, a.z - b.z⟩

def smul (c : ℝ) (v : Vec3) : Vec3 := ⟨c * v.x, c * v.y, c * v.z⟩

def dot (a b : Vec3) : ℝ := a.x * b.x + a.y * b.y + a.z * b.z

def length (v : Vec3) : ℝ := Real.sqrt (dot v v)

def normal (v : Vec3) : Vec3 := smul (length v)⁻¹ v

end Vec3

structure Mat3 where
  r0 : Vec3
  r1 : Vec3
  r2 : Vec3

/- `MVector * MMatrix`: row vector times matrix, translation ignored. -/
def mvmulDir (v : Vec3) (M : Mat3) : Vec3 :=
  Vec3.add (Vec3.add (Vec3.smul v.x M.r0) (Vec3.smul v.y M.r1)) (Vec3.smul v.z M.r2)

def Iden : Mat3 := ⟨⟨1, 0, 0⟩, ⟨0, 1, 0⟩, ⟨0, 0, 1⟩⟩

/- Rotation by 90 degrees about the world z axis (as a row-vector matrix:
it sends the direction (0,1,0) to (-1,0,0)). -/
def Rz90 : Mat3 := ⟨⟨0, 1, 0⟩, ⟨-1, 0, 0⟩, ⟨0, 0, 1⟩⟩

/- Lines 60-68. -/
def rootMid (r m : Vec3) : Vec3 := Vec3.sub m r

def midGoal (m e : Vec3) : Vec3 := Vec3.sub e m

def rootGoal (r e : Vec3) : Vec3 := Vec3.sub e r

def upperLength (r m : Vec3) : ℝ := (rootMid r m).length

def lowerLength (m e : Vec3) : ℝ := (midGoal m e).length

def totalLength (r m e : Vec3) : ℝ := upperLength r m + lowerLength m e

def rootGoalNorm (r e : Vec3) : Vec3 := (rootGoal r e).normal

def rootMidNorm (r m : Vec3) : Vec3 := Vec3.smul (upperLength r m)⁻¹ (rootMid r m)

/- Line 75: the right-side negation at line 74 is commented out in the
source, so `negate` is the constant 1. -/
def negate : ℝ := 1

/- Line 79: `upper_goal_angle = root_mid_norm * root_goal_norm` (MVector
`*` MVector is the dot product). -/
def upperGoalAngle (r m e : Vec3) : ℝ := Vec3.dot (rootMidNorm r m) (rootGoalNorm r e)

/- Line 83. -/
def goalProject (r m e : Vec3) : Vec3 :=
  Vec3.add r (Vec3.smul (upperLength r m * upperGoalAngle r m e) (rootGoalNorm r e))

/- Lines 80-84: `midW` is the mid fk control's world matrix queried at
line 70 (its rotation block; its translation equals the mid position). -/
def poleY (r m e : Vec3) (midW : Mat3) : Vec3 :=
  if upperGoalAngle r m e > 0.998 then mvmulDir ⟨0, negate, 0⟩ midW
  else (Vec3.sub m (goalProject r m e)).normal

/- Lines 73 and 86: the pole control is placed at the mid control's world
matrix (translation = mid position) and then moved relatively by
`pole_y * total_length`; line 87 zeroes its rotation. -/
def polePos (r m e : Vec3) (midW : Mat3) : Vec3 :=
  Vec3.add m (Vec3.smul (totalLength r m e) (poleY r m e midW))

/-- Modelled from the spec: the spec's own near-straight fallback — the
fixed axis (0,1,0), "sign-negated for mirrored/right-side limbs", rotated
into world space by the ROOT joint's orientation (`rootOrientation`).
Stated only for comparison with the source's `poleY`. -/
def specFallbackDir (rightSide : Bool) (rootW : Mat3) : Vec3 :=
  mvmulDir ⟨0, if rightSide then -1 else 1, 0⟩ rootW

/- Plane through the three joint positions (affine span around the mid
joint), and the predicate "mid lies off the root-end axis". -/
def inPlane (p r m e : Vec3) : Prop :=
  ∃ a b : ℝ,
    p = Vec3.add m (Vec3.add (Vec3.smul a (Vec3.sub r m)) (Vec3.smul b (Vec3.sub e m)))

def offAxis (r m e : Vec3) : Prop :=
  ∀ a : ℝ, Vec3.sub m r ≠ Vec3.smul a (Vec3.sub e r)

/- ### Vector lemmas -/

theorem Vec3.dot_self_nonneg (v : Vec3) : 0 ≤ Vec3.dot v v := by
  unfold Vec3.dot
  nlinarith [mul_self_nonneg v.x, mul_self_nonneg v.y, mul_self_nonneg v.z]

theorem Vec3.length_nonneg (v : Vec3) : 0 ≤ v.length := Real.sqrt_nonneg _

theorem Vec3.mul_self_length (v : Vec3) : v.length * v.length = Vec3.dot v v :=
  Real.mul_self_sqrt (Vec3.dot_self_nonneg v)

theorem Vec3.eq_zero_of_dot_self_eq_zero {v : Vec3} (h : Vec3.dot v v = 0) :
    v = ⟨0, 0, 0⟩ := by
  unfold Vec3.dot at h
  have hx : v.x * v.x = 0 :=
    le_antisymm (by nlinarith [mul_self_nonneg v.y, mul_self_nonneg v.z]) (mul_self_nonneg _)
  have hy : v.y * v.y = 0 :=
    le_antisymm (by nlinarith [mul_self_nonneg v.x, mul_self_nonneg v.z]) (mul_self_nonneg _)
  have hz : v.z * v.z = 0 :=
    le_antisymm (by nlinarith [mul_self_nonneg v.x, mul_self_nonneg v.y]) (mul_self_nonneg _)
  ext
  · exact mul_self_eq_zero.mp hx
  · exact mul_self_eq_zero.mp hy
  · exact mul_self_eq_zero.mp hz

theorem Vec3.length_eq_zero_iff {v : Vec3} : v.length = 0 ↔ v = ⟨0, 0, 0⟩ := by
  constructor
  · intro h
    exact Vec3.eq_zero_of_dot_self_eq_zero
      (le_antisymm (Real.sqrt_eq_zero'.mp h) (Vec3.dot_self_nonneg v))
  · intro h
    subst h
    simp [Vec3.length, Vec3.dot]

theorem Vec3.length_ne_zero_of_ne {v : Vec3} (h : v ≠ ⟨0, 0, 0⟩) : v.length ≠ 0 :=
  fun h0 => h (Vec3.length_eq_zero_iff.mp h0)

theorem Vec3.length_smul (c : ℝ) (v : Vec3) :
    (Vec3.smul c v).length = |c| * v.length := by
  unfold Vec3.length Vec3.smul Vec3.dot
  have h : c * v.x * (c * v.x) + c * v.y * (c * v.y) + c * v.z * (c * v.z)
      = c ^ 2 * (v.x * v.x + v.y * v.y + v.z * v.z) := by ring
  simp only []
  rw [h, Real.sqrt_mul (sq_nonneg c), Real.sqrt_sq_eq_abs]

theorem Vec3.length_normal {v : Vec3} (h : v ≠ ⟨0, 0, 0⟩) : v.normal.length = 1 := by
  unfold Vec3.normal
  rw [Vec3.length_smul, abs_inv, abs_of_nonneg (Vec3.length_nonneg v),
    inv_mul_cancel₀ (Vec3.length_ne_zero_of_ne h)]

theorem totalLength_nonneg (r m e : Vec3) : 0 ≤ totalLength r m e :=
  add_nonneg (Real.sqrt_nonneg _) (Real.sqrt_nonneg _)

end

/- ### Claims about the snap primitive and the orchestrators -/

/-- Claim C2: every `snap(source, target, toggle, value)` performs, in this
order: set toggle to `value`, create a parent-only duplicate of the source,
re-parent it under the target, set toggle to `1 - value`, read the
duplicate's world matrix, write it onto the source, delete the duplicate
(the source's parent is additionally queried, read-only, between the
duplication and the re-parent); consequently, in a scene-graph model where
the re-parented proxy evaluates to the target's pose, the source's final
world transform equals the target's world transform at toggle `1 - value`. -/
theorem snap_scene_op_order_and_result (T : Type) (tw : ℚ → T) (value : ℚ)
    (s0 : SnapState T) :
    (snapRun T tw value ⟨false, false, false⟩ s0).trace =
      [SnapOp.setToggle value, SnapOp.duplicateSource, SnapOp.queryParent,
       SnapOp.reparentProxy, SnapOp.setToggle (1 - value),
       SnapOp.readProxyMatrix, SnapOp.writeSourceMatrix, SnapOp.deleteProxy]
    ∧ (snapRun T tw value ⟨false, false, false⟩ s0).state.sourceW = tw (1 - value)
    ∧ (snapRun T tw value ⟨false, false, false⟩ s0).state.toggle = 1 - value
    ∧ (snapRun T tw value ⟨false, false, false⟩ s0).state.proxyLive = false
    ∧ (snapRun T tw value ⟨false, false, false⟩ s0).err = none :=
  ⟨rfl, rfl, rfl, rfl, rfl⟩

/-- Claim C3, counterexample: `snap` has no `try/finally` around lines
319-333, so when the re-parent (line 323) fails the error propagates with
the proxy still in the scene — the claim that no proxy remains on any exit
path is false at this concrete run. -/
theorem snap_proxy_leak_on_reparent_failure :
    (snapRun ℚ (fun q => q) 0 ⟨true, false, false⟩ ⟨0, 5, false⟩).err =
        some SnapErr.reparentFailed
    ∧ (snapRun ℚ (fun q => q) 0 ⟨true, false, false⟩ ⟨0, 5, false⟩).state.proxyLive
        = true :=
  ⟨rfl, rfl⟩

/-- Claim C3, amended: on normal completion `snap` deletes the proxy as its
last step, but when the re-parent, the matrix read or the matrix write
fails, the error propagates before the deletion and the proxy remains in
the scene. -/
theorem snap_proxy_cleanup_paths (T : Type) (tw : ℚ → T) (value : ℚ)
    (s0 : SnapState T) :
    ((snapRun T tw value ⟨false, false, false⟩ s0).state.proxyLive = false
      ∧ (snapRun T tw value ⟨false, false, false⟩ s0).err = none)
    ∧ ((snapRun T tw value ⟨true, false, false⟩ s0).state.proxyLive = true
      ∧ (snapRun T tw value ⟨true, false, false⟩ s0).err = some SnapErr.reparentFailed)
    ∧ ((snapRun T tw value ⟨false, true, false⟩ s0).state.proxyLive = true
      ∧ (snapRun T tw value ⟨false, true, false⟩ s0).err = some SnapErr.readFailed)
    ∧ ((snapRun T tw value ⟨false, false, true⟩ s0).state.proxyLive = true
      ∧ (snapRun T tw value ⟨false, false, true⟩ s0).err = some SnapErr.writeFailed) :=
  ⟨⟨rfl, rfl⟩, ⟨rfl, rfl⟩, ⟨rfl, rfl⟩, ⟨rfl, rfl⟩⟩

/-- Claim C4, counterexample: when a snap step fails inside `ik_to_fk`
(here: the handle snap, with the blend read as 2 beforehand), the
restoration at line 102 never runs and the toggle is left at the snap's
transient value 1 ≠ 2, so the toggle does not always equal its pre-call
value on error paths. -/
theorem toggle_left_flipped_on_snap_failure :
    (ikToFkRun "armSettings_L0_001_ctl" true false 2 0 true true).toggle = 1
    ∧ (ikToFkRun "armSettings_L0_001_ctl" true false 2 0 true true).errored = true
    ∧ (1 : ℚ) ≠ 2 :=
  ⟨rfl, rfl, by norm_num⟩

/-- Claim C4, amended: `ik_to_fk` and `fk_to_ik` restore the blend toggle
to its pre-call value on every run in which no snap step fails (including
the run that ends in the keyframing name-lookup error, which occurs after
the line 102 / line 145 restore); there is no `try/finally`, so a failure
inside a snap leaves the toggle at the snap's transient value. -/
theorem toggle_restored_without_failure (blendCtl : String) (ikRot key : Bool)
    (b0 r0 : ℚ) (bt : Bool) :
    (ikToFkRun blendCtl ikRot key b0 r0 false bt).toggle = b0
    ∧ (fkToIkRun blendCtl key b0 r0 false).toggle = b0 := by
  cases h : strContains blendCtl "leg" <;> cases ikRot <;> cases key <;> cases bt <;>
    simp [ikToFkRun, ikToFkTail, fkToIkRun, fkToIkTail, h]

/-- Claim C8, counterexample: on an arm-type limb a single `ik_to_fk` call
performs exactly one snap transfer (the handle), not three, and a
`fk_to_ik` call performs no pole placement — so "exactly three joint
transfers plus the pole placement" does not describe every call. -/
theorem arm_ik_to_fk_single_transfer :
    snapCount (ikToFkRun "armSettings_L0_001_ctl" true false 2 0 false true).trace = 1
    ∧ (1 : ℕ) ≠ 3
    ∧ Ev.movePoleRel ∉ (fkToIkRun "armSettings_L0_001_ctl" false 2 0 false).trace :=
  ⟨by decide, by norm_num, by decide⟩

/-- Claim C8, amended: in both orchestrators the extra ball step runs if
and only if the blend control's name contains `"leg"`; `ik_to_fk` performs
one snap transfer (the handle, when `ik_rotation` holds) plus the pole
placement, and `fk_to_ik` performs exactly three snap transfers for an
arm (four for a leg) and no pole placement. -/
theorem ball_step_iff_leg_and_counts (blendCtl : String) (ikRot key : Bool)
    (b0 r0 : ℚ) (bt : Bool) :
    ((Ev.ballCopy ∈ (ikToFkRun blendCtl ikRot key b0 r0 false bt).trace)
        ↔ strContains blendCtl "leg" = true)
    ∧ ((Ev.snapCall SnapSlot.ball 0 ∈ (fkToIkRun blendCtl key b0 r0 false).trace)
        ↔ strContains blendCtl "leg" = true)
    ∧ snapCount (ikToFkRun blendCtl true key b0 r0 false bt).trace = 1
    ∧ Ev.movePoleRel ∈ (ikToFkRun blendCtl true key b0 r0 false bt).trace
    ∧ snapCount (fkToIkRun blendCtl key b0 r0 false).trace =
        (if strContains blendCtl "leg" = true then 4 else 3)
    ∧ Ev.movePoleRel ∉ (fkToIkRun blendCtl key b0 r0 false).trace := by
  cases h : strContains blendCtl "leg" <;> cases ikRot <;> cases key <;> cases bt <;>
    simp [ikToFkRun, ikToFkTail, fkToIkRun, fkToIkTail, snapCount, Ev.isSnap, h,
          List.filter_append]

/-- Claim C9: with `key=True` on a limb whose blend-control name does not
contain `"leg"`, both `ik_to_fk` (line 107, `if ball_ik:`) and `fk_to_ik`
(line 150, `if ball_fk:`) read a local variable assigned only inside the
leg branch, so the call raises a name-lookup error instead of completing. -/
theorem arm_keying_raises (blendCtl : String) (ikRot : Bool) (b0 r0 : ℚ)
    (bt : Bool) (h : strContains blendCtl "leg" = false) :
    ((ikToFkRun blendCtl ikRot true b0 r0 false bt).errored = true
      ∧ Ev.nameError ∈ (ikToFkRun blendCtl ikRot true b0 r0 false bt).trace)
    ∧ ((fkToIkRun blendCtl true b0 r0 false).errored = true
      ∧ Ev.nameError ∈ (fkToIkRun blendCtl true b0 r0 false).trace) := by
  cases ikRot <;> cases bt <;>
    simp [ikToFkRun, ikToFkTail, fkToIkRun, fkToIkTail, h]

/-- Witness for `arm_keying_raises` at the stock left-arm settings
control. -/
theorem arm_keying_raises_example :
    strContains "armSettings_L0_001_ctl" "leg" = false
    ∧ (((ikToFkRun "armSettings_L0_001_ctl" true true 2 0 false true).errored = true
      ∧ Ev.nameError ∈ (ikToFkRun "armSettings_L0_001_ctl" true true 2 0 false true).trace)
    ∧ ((fkToIkRun "armSettings_L0_001_ctl" true 2 0 false).errored = true
      ∧ Ev.nameError ∈ (fkToIkRun "armSettings_L0_001_ctl" true 2 0 false).trace)) :=
  ⟨by decide, arm_keying_raises "armSettings_L0_001_ctl" true 2 0 true (by decide)⟩

/-- Claim C10: every `ik_to_fk` call, for all argument values, sets the ik
handle's `ikRoll` attribute to 0 (line 41) immediately after reading the
blend value and before any transform is read or transferred, discarding
the previous roll value. -/
theorem ikroll_reset_before_transfers (blendCtl : String) (ikRot key : Bool)
    (b0 r0 : ℚ) (sf bt : Bool) :
    (ikToFkRun blendCtl ikRot key b0 r0 sf bt).trace.take 2 =
      [Ev.getBlend, Ev.setIkRoll 0]
    ∧ (ikToFkRun blendCtl ikRot key b0 r0 sf bt).ikRoll = 0 := by
  cases h : strContains blendCtl "leg" <;> cases ikRot <;> cases key <;>
    cases sf <;> cases bt <;> simp [ikToFkRun, ikToFkTail, h]

/- ### Worked-example computations for the pole geometry -/

theorem exUpper : upperLength ⟨0,0,0⟩ ⟨1,0,0⟩ = 1 := by
  norm_num [upperLength, rootMid, Vec3.length, Vec3.dot, Vec3.sub, Real.sqrt_one]

theorem sqrt5_sq : Real.sqrt 5 * Real.sqrt 5 = 5 := Real.mul_self_sqrt (by norm_num)

theorem sqrt5_pos : 0 < Real.sqrt 5 := Real.sqrt_pos.mpr (by norm_num)

theorem exRGN : rootGoalNorm ⟨0,0,0⟩ ⟨2,1,0⟩ = ⟨2 * (Real.sqrt 5)⁻¹, (Real.sqrt 5)⁻¹, 0⟩ := by
  unfold rootGoalNorm Vec3.normal rootGoal Vec3.length
  norm_num [Vec3.sub, Vec3.dot, Vec3.smul]
  ring

theorem exAngle : upperGoalAngle ⟨0,0,0⟩ ⟨1,0,0⟩ ⟨2,1,0⟩ = 2 * (Real.sqrt 5)⁻¹ := by
  unfold upperGoalAngle rootMidNorm
  rw [exUpper, exRGN]
  norm_num [rootMid, Vec3.sub, Vec3.smul, Vec3.dot]

theorem angle_le : 2 * (Real.sqrt 5)⁻¹ ≤ 0.998 := by
  have h5 := sqrt5_sq
  have hp := sqrt5_pos
  rw [← div_eq_mul_inv, div_le_iff₀ hp]
  nlinarith [h5, hp]

theorem exGoalProject : goalProject ⟨0,0,0⟩ ⟨1,0,0⟩ ⟨2,1,0⟩ = ⟨4/5, 2/5, 0⟩ := by
  unfold goalProject
  rw [exUpper, exAngle, exRGN]
  have h5 := sqrt5_sq
  have hp := sqrt5_pos
  ext <;> simp [Vec3.add, Vec3.smul] <;> field_simp <;> nlinarith [h5, hp]

theorem exPoleDir :
    (Vec3.sub ⟨1,0,0⟩ ⟨4/5, 2/5, 0⟩ : Vec3).normal
      = ⟨Real.sqrt 5 / 5, -(2 * Real.sqrt 5 / 5), 0⟩ := by
  have hsub : (Vec3.sub ⟨1,0,0⟩ ⟨4/5, 2/5, 0⟩ : Vec3) = ⟨1/5, -(2/5), 0⟩ := by
    norm_num [Vec3.sub]
  rw [hsub]
  have hlen : (⟨1/5, -(2/5), 0⟩ : Vec3).length = (Real.sqrt 5)⁻¹ := by
    unfold Vec3.length
    norm_num [Vec3.dot]
  unfold Vec3.normal
  rw [hlen, inv_inv]
  ext <;> simp [Vec3.smul] <;> ring

theorem exPoleY (M : Mat3) :
    poleY ⟨0,0,0⟩ ⟨1,0,0⟩ ⟨2,1,0⟩ M = ⟨Real.sqrt 5 / 5, -(2 * Real.sqrt 5 / 5), 0⟩ := by
  unfold poleY
  rw [if_neg (by rw [exAngle]; exact not_lt.mpr angle_le), exGoalProject, exPoleDir]

theorem exTotal : totalLength ⟨0,0,0⟩ ⟨1,0,0⟩ ⟨2,1,0⟩ = 1 + Real.sqrt 2 := by
  unfold totalLength
  rw [exUpper]
  norm_num [lowerLength, midGoal, Vec3.length, Vec3.dot, Vec3.sub]

theorem exPolePos (M : Mat3) :
    polePos ⟨0,0,0⟩ ⟨1,0,0⟩ ⟨2,1,0⟩ M =
      ⟨1 + (1 + Real.sqrt 2) * (Real.sqrt 5 / 5),
       -((1 + Real.sqrt 2) * (2 * Real.sqrt 5 / 5)), 0⟩ := by
  unfold polePos
  rw [exTotal, exPoleY]
  ext <;> simp [Vec3.add, Vec3.smul]

theorem exStraightAngle : upperGoalAngle ⟨0,0,0⟩ ⟨1,0,0⟩ ⟨2,0,0⟩ = 1 := by
  have h4 : Real.sqrt 4 = 2 := by
    rw [show (4:ℝ) = 2^2 by norm_num, Real.sqrt_sq (by norm_num : (0:ℝ) ≤ 2)]
  unfold upperGoalAngle rootMidNorm rootGoalNorm Vec3.normal rootGoal Vec3.length
  rw [exUpper]
  norm_num [rootMid, Vec3.sub, Vec3.dot, Vec3.smul, h4]

theorem exCoAngle : upperGoalAngle ⟨0,0,0⟩ ⟨1,0,0⟩ ⟨1,0,0⟩ = 1 := by
  unfold upperGoalAngle rootMidNorm rootGoalNorm Vec3.normal rootGoal Vec3.length
  rw [exUpper]
  norm_num [rootMid, Vec3.sub, Vec3.dot, Vec3.smul, Real.sqrt_one]

/- ### Claims about the pole-vector geometry -/

/-- Claim C1, counterexample: the worked example is miscomputed in the
claim.  At root=(0,0,0), mid=(1,0,0), end=(2,1,0) the code's
`goal_project` equals rootPos + rootGoalNorm·upperLength·cosAngle =
(4/5, 2/5, 0) (cosAngle = 2/√5), not the claimed (0.894, 0.447, 0) —
which is rootGoalNorm itself, off by far more than 3-decimal rounding. -/
theorem example_goal_projection_differs :
    goalProject ⟨0,0,0⟩ ⟨1,0,0⟩ ⟨2,1,0⟩ = ⟨4/5, 2/5, 0⟩
    ∧ goalProject ⟨0,0,0⟩ ⟨1,0,0⟩ ⟨2,1,0⟩ ≠ ⟨0.894, 0.447, 0⟩
    ∧ |(4 : ℝ)/5 - 0.894| > 1/20 ∧ |(2 : ℝ)/5 - 0.447| > 1/25 := by
  refine ⟨exGoalProject, ?_, ?_, ?_⟩
  · rw [exGoalProject]
    intro h
    exact absurd (congrArg Vec3.x h) (by norm_num)
  · rw [abs_of_nonpos (by norm_num)]
    norm_num
  · rw [abs_of_nonpos (by norm_num)]
    norm_num

/-- Claim C1, amended: at the worked example root=(0,0,0), mid=(1,0,0),
end=(2,1,0), the cosine 2/√5 is at most 0.998, so the general-case branch
fires and computes `goalProjection = rootPos + rootGoalNorm·upperLength·
cosAngle = (0.8, 0.4, 0)`, pole direction `normalize(midPos −
goalProjection) = (√5/5, −2√5/5, 0)`, and pole position `midPos +
poleDirection·totalLength` with `totalLength = 1 + √2` (line 87 then
zeroes the pole control's rotation, `zeroPoleRot` in the trace model). -/
theorem general_branch_example_values (M : Mat3) :
    upperGoalAngle ⟨0,0,0⟩ ⟨1,0,0⟩ ⟨2,1,0⟩ ≤ 0.998
    ∧ goalProject ⟨0,0,0⟩ ⟨1,0,0⟩ ⟨2,1,0⟩ = ⟨4/5, 2/5, 0⟩
    ∧ poleY ⟨0,0,0⟩ ⟨1,0,0⟩ ⟨2,1,0⟩ M =
        (Vec3.sub ⟨1,0,0⟩ (goalProject ⟨0,0,0⟩ ⟨1,0,0⟩ ⟨2,1,0⟩)).normal
    ∧ poleY ⟨0,0,0⟩ ⟨1,0,0⟩ ⟨2,1,0⟩ M = ⟨Real.sqrt 5 / 5, -(2 * Real.sqrt 5 / 5), 0⟩
    ∧ totalLength ⟨0,0,0⟩ ⟨1,0,0⟩ ⟨2,1,0⟩ = 1 + Real.sqrt 2
    ∧ polePos ⟨0,0,0⟩ ⟨1,0,0⟩ ⟨2,1,0⟩ M =
        ⟨1 + (1 + Real.sqrt 2) * (Real.sqrt 5 / 5),
         -((1 + Real.sqrt 2) * (2 * Real.sqrt 5 / 5)), 0⟩ := by
  refine ⟨by rw [exAngle]; exact angle_le, exGoalProject, ?_, exPoleY M, exTotal, exPolePos M⟩
  unfold poleY
  rw [if_neg (by rw [exAngle]; exact not_lt.mpr angle_le)]

/-- Claim C5, counterexample: the code has no degeneracy check and defines
no DegenerateChain error.  With midPos = endPos = (1,0,0) (a zero-length
lower segment, a degenerate chain) it silently produces the pole position
(1,1,0) instead of failing. -/
theorem mid_end_coincident_returns_result :
    ((⟨0,0,0⟩ : Vec3) ≠ ⟨1,0,0⟩)
    ∧ polePos ⟨0,0,0⟩ ⟨1,0,0⟩ ⟨1,0,0⟩ Iden = ⟨1,1,0⟩ := by
  constructor
  · intro h; exact absurd (congrArg Vec3.x h) (by norm_num)
  · unfold polePos poleY
    rw [if_pos (by rw [exCoAngle]; norm_num)]
    unfold totalLength lowerLength midGoal
    rw [exUpper]
    norm_num [mvmulDir, Iden, negate, Vec3.smul, Vec3.add, Vec3.sub, Vec3.length,
      Vec3.dot, Real.sqrt_zero]

/-- Claim C5, amended: the pole computation performs no degeneracy check;
whenever midPos = endPos (with rootPos ≠ midPos) the cosine evaluates to
1 > 0.998, the near-straight fallback branch is taken, and the pole
position midPos + upperLength·((0,1,0)·midW) is silently returned.  (For
rootPos = midPos the division by zero at line 68 is equally unguarded;
the host's float semantics yield non-finite values, not an error.) -/
theorem mid_end_coincident_fallback_value (r m : Vec3) (M : Mat3) (h : r ≠ m) :
    polePos r m m M = Vec3.add m (Vec3.smul (upperLength r m) (mvmulDir ⟨0, 1, 0⟩ M)) := by
  have hv : rootMid r m ≠ ⟨0, 0, 0⟩ := by
    intro h0
    apply h
    have h0' : m.x - r.x = 0 ∧ m.y - r.y = 0 ∧ m.z - r.z = 0 := by
      simpa [rootMid, Vec3.sub, Vec3.mk.injEq] using h0
    ext <;> linarith [h0'.1, h0'.2.1, h0'.2.2]
  have hL : upperLength r m ≠ 0 := Vec3.length_ne_zero_of_ne hv
  have hdot : (rootMid r m).x * (rootMid r m).x + (rootMid r m).y * (rootMid r m).y
      + (rootMid r m).z * (rootMid r m).z = upperLength r m * upperLength r m := by
    simpa [Vec3.dot] using (Vec3.mul_self_length (rootMid r m)).symm
  have hangle : upperGoalAngle r m m = 1 := by
    unfold upperGoalAngle rootMidNorm rootGoalNorm Vec3.normal
    have hg : rootGoal r m = rootMid r m := rfl
    rw [hg]
    have hlen : (rootMid r m).length = upperLength r m := rfl
    rw [hlen]
    simp only [Vec3.smul, Vec3.dot]
    field_simp
    linear_combination hdot
  have hgt : upperGoalAngle r m m > 0.998 := by rw [hangle]; norm_num
  have hlow : lowerLength m m = 0 := by
    simp [lowerLength, midGoal, Vec3.sub, Vec3.length, Vec3.dot]
  unfold polePos poleY totalLength
  rw [if_pos hgt, hlow, add_zero]
  norm_num [negate]

/-- Witness for `mid_end_coincident_fallback_value` at root=(0,0,0),
mid=end=(1,0,0) with the identity mid matrix. -/
theorem mid_end_coincident_fallback_value_example :
    ((⟨0,0,0⟩ : Vec3) ≠ ⟨1,0,0⟩)
    ∧ polePos ⟨0,0,0⟩ ⟨1,0,0⟩ ⟨1,0,0⟩ Iden =
        Vec3.add ⟨1,0,0⟩ (Vec3.smul (upperLength ⟨0,0,0⟩ ⟨1,0,0⟩) (mvmulDir ⟨0, 1, 0⟩ Iden)) :=
  ⟨fun h => absurd (congrArg Vec3.x h) (by norm_num),
   mid_end_coincident_fallback_value ⟨0,0,0⟩ ⟨1,0,0⟩ Iden
     (fun h => absurd (congrArg Vec3.x h) (by norm_num))⟩

/-- Claim C6, counterexample: in the fallback branch the code transforms
the fixed axis by the MID fk control's world matrix with `negate`
hard-coded to 1 (the right-side negation at line 74 is commented out).
In a scene with a collinear chain, root orientation Rz90 and identity mid
orientation, the code produces (0,1,0) while the claim's root-rotated
axis is (−1,0,0); for a right-side limb with identity orientations the
claim's sign-negated axis is (0,−1,0), also different. -/
theorem fallback_dir_ignores_root_and_side :
    poleY ⟨0,0,0⟩ ⟨1,0,0⟩ ⟨2,0,0⟩ Iden = ⟨0, 1, 0⟩
    ∧ specFallbackDir false Rz90 = ⟨-1, 0, 0⟩
    ∧ specFallbackDir true Iden = ⟨0, -1, 0⟩
    ∧ ((⟨0, 1, 0⟩ : Vec3) ≠ ⟨-1, 0, 0⟩)
    ∧ ((⟨0, 1, 0⟩ : Vec3) ≠ ⟨0, -1, 0⟩) := by
  refine ⟨?_, ?_, ?_, ?_, ?_⟩
  · unfold poleY
    rw [if_pos (by rw [exStraightAngle]; norm_num)]
    norm_num [mvmulDir, Iden, negate, Vec3.smul, Vec3.add]
  · norm_num [specFallbackDir, mvmulDir, Rz90, Vec3.smul, Vec3.add]
  · norm_num [specFallbackDir, mvmulDir, Iden, Vec3.smul, Vec3.add]
  · intro hh; exact absurd (congrArg Vec3.x hh) (by norm_num)
  · intro hh; exact absurd (congrArg Vec3.y hh) (by norm_num)

/-- Claim C6, amended: whenever the cosine exceeds 0.998 the pole
direction is the fixed axis (0,1,0) — never sign-negated — transformed as
a direction by the MID fk control's world matrix (not by the root joint's
orientation), the generic projection formula is not used, and the pole is
placed at midPos + direction·totalLength. -/
theorem fallback_uses_mid_matrix (r m e : Vec3) (M : Mat3)
    (h : upperGoalAngle r m e > 0.998) :
    poleY r m e M = mvmulDir ⟨0, 1, 0⟩ M
    ∧ polePos r m e M =
        Vec3.add m (Vec3.smul (totalLength r m e) (mvmulDir ⟨0, 1, 0⟩ M)) := by
  have h1 : poleY r m e M = mvmulDir ⟨0, 1, 0⟩ M := by
    unfold poleY
    rw [if_pos h]
    norm_num [negate]
  exact ⟨h1, by unfold polePos; rw [h1]⟩

/-- Witness for `fallback_uses_mid_matrix` at the fully-extended chain
root=(0,0,0), mid=(1,0,0), end=(2,0,0) (cosine exactly 1) with the
Rz90 mid matrix. -/
theorem fallback_uses_mid_matrix_example :
    upperGoalAngle ⟨0,0,0⟩ ⟨1,0,0⟩ ⟨2,0,0⟩ > 0.998
    ∧ (poleY ⟨0,0,0⟩ ⟨1,0,0⟩ ⟨2,0,0⟩ Rz90 = mvmulDir ⟨0, 1, 0⟩ Rz90
      ∧ polePos ⟨0,0,0⟩ ⟨1,0,0⟩ ⟨2,0,0⟩ Rz90 =
          Vec3.add ⟨1,0,0⟩
            (Vec3.smul (totalLength ⟨0,0,0⟩ ⟨1,0,0⟩ ⟨2,0,0⟩) (mvmulDir ⟨0, 1, 0⟩ Rz90))) :=
  ⟨by rw [exStraightAngle]; norm_num,
   fallback_uses_mid_matrix ⟨0,0,0⟩ ⟨1,0,0⟩ ⟨2,0,0⟩ Rz90
     (by rw [exStraightAngle]; norm_num)⟩

/-- Claim C7, amended: for every chain taking the general-case branch
(cosine ≤ 0.998) whose mid joint lies off the root-end axis, the computed
pole position lies at distance totalLength from midPos and in the plane
spanned by the three joint positions.  (In the fallback branch the fixed
axis can leave the joint plane — see the counterexample — and for a fully
folded collinear chain the normalization of the zero vector collapses the
offset.) -/
theorem general_pole_distance_and_plane (r m e : Vec3) (M : Mat3)
    (hcos : upperGoalAngle r m e ≤ 0.998) (hoff : offAxis r m e) :
    (Vec3.sub (polePos r m e M) m).length = totalLength r m e
    ∧ inPlane (polePos r m e M) r m e := by
  have hb : poleY r m e M = (Vec3.sub m (goalProject r m e)).normal := by
    unfold poleY
    rw [if_neg (not_lt.mpr hcos)]
  have hgp : Vec3.sub m (goalProject r m e) =
      ⟨m.x - r.x - upperLength r m * upperGoalAngle r m e *
          ((Vec3.length (rootGoal r e))⁻¹ * (e.x - r.x)),
       m.y - r.y - upperLength r m * upperGoalAngle r m e *
          ((Vec3.length (rootGoal r e))⁻¹ * (e.y - r.y)),
       m.z - r.z - upperLength r m * upperGoalAngle r m e *
          ((Vec3.length (rootGoal r e))⁻¹ * (e.z - r.z))⟩ := by
    simp only [goalProject, rootGoalNorm, Vec3.normal, rootGoal, Vec3.sub, Vec3.add,
      Vec3.smul]
    ext <;> ring
  have hw : Vec3.sub m (goalProject r m e) ≠ ⟨0, 0, 0⟩ := by
    intro h0
    rw [hgp] at h0
    have hx := congrArg Vec3.x h0
    have hy := congrArg Vec3.y h0
    have hz := congrArg Vec3.z h0
    dsimp only at hx hy hz
    refine hoff (upperLength r m * upperGoalAngle r m e * (Vec3.length (rootGoal r e))⁻¹) ?_
    ext
    · simp only [Vec3.sub, Vec3.smul]
      linear_combination hx
    · simp only [Vec3.sub, Vec3.smul]
      linear_combination hy
    · simp only [Vec3.sub, Vec3.smul]
      linear_combination hz
  have hsp : Vec3.sub (polePos r m e M) m =
      Vec3.smul (totalLength r m e) (poleY r m e M) := by
    unfold polePos
    ext <;> simp only [Vec3.sub, Vec3.add, Vec3.smul] <;> ring
  constructor
  · rw [hsp, Vec3.length_smul, hb, Vec3.length_normal hw, mul_one,
      abs_of_nonneg (totalLength_nonneg r m e)]
  · refine ⟨totalLength r m e * (Vec3.length (Vec3.sub m (goalProject r m e)))⁻¹ *
        (upperLength r m * upperGoalAngle r m e * (Vec3.length (rootGoal r e))⁻¹ - 1),
      -(totalLength r m e * (Vec3.length (Vec3.sub m (goalProject r m e)))⁻¹ *
        (upperLength r m * upperGoalAngle r m e * (Vec3.length (rootGoal r e))⁻¹)), ?_⟩
    unfold polePos
    rw [hb]
    unfold Vec3.normal
    rw [hgp]
    ext <;> simp only [Vec3.add, Vec3.smul, Vec3.sub] <;> ring

/-- Witness for `general_pole_distance_and_plane` at the worked example
root=(0,0,0), mid=(1,0,0), end=(2,1,0) with the identity mid matrix. -/
theorem general_pole_distance_and_plane_example :
    upperGoalAngle ⟨0,0,0⟩ ⟨1,0,0⟩ ⟨2,1,0⟩ ≤ 0.998
    ∧ offAxis ⟨0,0,0⟩ ⟨1,0,0⟩ ⟨2,1,0⟩
    ∧ ((Vec3.sub (polePos ⟨0,0,0⟩ ⟨1,0,0⟩ ⟨2,1,0⟩ Iden) ⟨1,0,0⟩).length
          = totalLength ⟨0,0,0⟩ ⟨1,0,0⟩ ⟨2,1,0⟩
      ∧ inPlane (polePos ⟨0,0,0⟩ ⟨1,0,0⟩ ⟨2,1,0⟩ Iden) ⟨0,0,0⟩ ⟨1,0,0⟩ ⟨2,1,0⟩) := by
  have h1 : upperGoalAngle ⟨0,0,0⟩ ⟨1,0,0⟩ ⟨2,1,0⟩ ≤ 0.998 := by
    rw [exAngle]; exact angle_le
  have h2 : offAxis ⟨0,0,0⟩ ⟨1,0,0⟩ ⟨2,1,0⟩ := by
    intro a h
    have hx := congrArg Vec3.x h
    have hy := congrArg Vec3.y h
    simp [Vec3.sub, Vec3.smul] at hx hy
    linarith [hx, hy]
  exact ⟨h1, h2, general_pole_distance_and_plane ⟨0,0,0⟩ ⟨1,0,0⟩ ⟨2,1,0⟩ Iden h1 h2⟩

/-- Claim C7, counterexample: the non-degenerate, non-collinear chain
root=(0,0,0), mid=(1,0,0), end=(2,0,1/10) has cosine 20/√401 > 0.998, so
the fallback branch fires; with an identity mid matrix the pole is offset
along (0,1,0), which leaves the plane y = 0 spanned by the three joints —
so the claim does not hold for the fallback branch. -/
theorem fallback_pole_leaves_bend_plane :
    ((⟨0,0,0⟩ : Vec3) ≠ ⟨1,0,0⟩) ∧ ((⟨1,0,0⟩ : Vec3) ≠ ⟨2,0,1/10⟩)
    ∧ ¬ inPlane (polePos ⟨0,0,0⟩ ⟨1,0,0⟩ ⟨2,0,1/10⟩ Iden) ⟨0,0,0⟩ ⟨1,0,0⟩ ⟨2,0,1/10⟩ := by
  refine ⟨fun h => absurd (congrArg Vec3.x h) (by norm_num),
          fun h => absurd (congrArg Vec3.x h) (by norm_num), ?_⟩
  have hq : Real.sqrt (401/100) * Real.sqrt (401/100) = 401/100 :=
    Real.mul_self_sqrt (by norm_num)
  have hqpos : 0 < Real.sqrt (401/100) := Real.sqrt_pos.mpr (by norm_num)
  have hangle : upperGoalAngle ⟨0,0,0⟩ ⟨1,0,0⟩ ⟨2,0,1/10⟩
      = 2 * (Real.sqrt (401/100))⁻¹ := by
    unfold upperGoalAngle rootMidNorm rootGoalNorm Vec3.normal rootGoal Vec3.length
    rw [exUpper]
    norm_num [rootMid, Vec3.sub, Vec3.dot, Vec3.smul]
    ring
  have hgt : upperGoalAngle ⟨0,0,0⟩ ⟨1,0,0⟩ ⟨2,0,1/10⟩ > 0.998 := by
    rw [hangle, gt_iff_lt, ← div_eq_mul_inv, lt_div_iff₀ hqpos]
    nlinarith [hq, hqpos]
  have hpy : poleY ⟨0,0,0⟩ ⟨1,0,0⟩ ⟨2,0,1/10⟩ Iden = ⟨0, 1, 0⟩ := by
    unfold poleY
    rw [if_pos hgt]
    norm_num [mvmulDir, Iden, negate, Vec3.smul, Vec3.add]
  have hlnn : 0 ≤ lowerLength ⟨1,0,0⟩ ⟨2,0,1/10⟩ := Real.sqrt_nonneg _
  have hpp : polePos ⟨0,0,0⟩ ⟨1,0,0⟩ ⟨2,0,1/10⟩ Iden =
      Vec3.add ⟨1,0,0⟩
        (Vec3.smul (1 + lowerLength ⟨1,0,0⟩ ⟨2,0,1/10⟩) ⟨0,1,0⟩) := by
    unfold polePos
    rw [hpy]
    unfold totalLength
    rw [exUpper]
  rintro ⟨a, b, hab⟩
  rw [hpp] at hab
  have hy := congrArg Vec3.y hab
  simp [Vec3.add, Vec3.smul, Vec3.sub] at hy
  linarith [hlnn, hy]

end IkfkSnap
